import Mathlib

set_option linter.unusedVariables false

/-!
# Verification of the NoBrokerage AI chatbot core logic

Shallow embedding of the two source files of the repository
(`src/ai_core.py` and `src/app.py`) — a conversational property-search
assistant — together with theorems settling the specification's claims.

External collaborators (the Gemini NLU/summarization models) are modelled as
oracles: an `Option` argument whose `none` case stands for any failure of the
external call (exception, timeout, absent structured response) and whose
`some` case carries the collaborator's reply.  Python dictionaries are
modelled as association lists over a dynamic value type `PyVal`; Python
truthiness is made explicit.  Numbers are `Rat` (the Python floats in play
are small decimals, used only for comparison and arithmetic by halves /
tenths, so rationals are an exact model).
-/

/-- ASCII lowercasing of one character, the model of Python's `str.lower`
on the ASCII text this program handles. -/
def lowerChar (c : Char) : Char :=
  if 65 ≤ c.toNat ∧ c.toNat ≤ 90 then Char.ofNat (c.toNat + 32) else c

/-- Lowercase a string (model of Python `str.lower()`). -/
def lowerStr (s : String) : String :=
  ⟨s.data.map lowerChar⟩

/-- `needle` is a prefix of `haystack` (character lists). -/
def prefixAt : List Char → List Char → Bool
  | [], _ => true
  | _ :: _, [] => false
  | a :: as, b :: bs => a == b && prefixAt as bs

/-- `needle` occurs contiguously somewhere in `haystack` (character lists). -/
def listContains (haystack needle : List Char) : Bool :=
  match haystack with
  | [] => needle.isEmpty
  | c :: rest => prefixAt needle (c :: rest) || listContains rest needle

/-- Substring containment, the model of Python's `needle in haystack` on
strings. -/
def strContains (haystack needle : String) : Bool :=
  listContains haystack.data needle.data

/-- A primitive value, the element type of the collaborator's arrays: the
extraction schema (`EXTRACTION_SCHEMA`) types every array field as an
array of primitives (`bhk_list`: numbers, `status_list`: strings). -/
inductive PyPrim where
  | str (s : String) : PyPrim
  | num (q : Rat) : PyPrim
  deriving DecidableEq, Repr

/-- Dynamic Python value, as far as this program's data flows need:
`none` is Python `None`; `str`/`num` are the scalars; `list` is a plain
Python list; `repeated` is a collaborator-native iterable wrapper type
(protobuf `RepeatedComposite`), iterable but not a plain list.  Container
elements are primitives, which is all the five-field wire schema admits. -/
inductive PyVal where
  | none : PyVal
  | str (s : String) : PyVal
  | num (q : Rat) : PyVal
  | list (xs : List PyPrim) : PyVal
  | repeated (xs : List PyPrim) : PyVal
  deriving DecidableEq, Repr

/-- A Python dict with string keys, as an association list in insertion
order (keys are unique in every dict this program builds). -/
abbrev PyDict := List (String × PyVal)

/-- Model of Python `d.get(k)`: first binding of the key, `Option.none`
when the key is absent. -/
def dictGet (d : PyDict) (k : String) : Option PyVal :=
  (d.find? (fun kv => kv.1 == k)).map (·.2)

/-- Python truthiness of a `PyVal`: `None`, `""`, `0` and empty
containers are falsy. -/
def truthy : PyVal → Bool
  | PyVal.none => false
  | PyVal.str s => s ≠ ""
  | PyVal.num q => q ≠ 0
  | PyVal.list xs => !xs.isEmpty
  | PyVal.repeated xs => !xs.isEmpty

/-- One prepared row of the property dataset, after `load_and_prep_data`
(`src/app.py`): `city_lower`/`status_lower` are the precomputed lowercase
comparison keys; the numeric columns are `Option Rat`, `Option.none`
standing for a NaN produced by `pd.to_numeric(errors='coerce')` (NaN
compares false and is never a member of a list, which the `Option.none`
cases below reproduce).  Display-only columns other than `projectName`
(landmark, formatted price) are elided: no logic reads them. -/
structure Row where
  projectName : String := ""
  city : String := ""
  city_lower : String := ""
  possession_status : String := ""
  status_lower : String := ""
  bhk : Option Rat := Option.none
  price_cr : Option Rat := Option.none
  pincode : Option Rat := Option.none
  balcony : Option Rat := Option.none
  deriving DecidableEq, Repr

/-- `str(v).lower()` for the city filter value; the extraction schema
types `city` as STRING, so only the `str` case is ever reached. -/
def pyStrLower : PyVal → String
  | PyVal.str s => lowerStr s
  | _ => ""

/-- The numeric elements of a `bhk_list` value (`[float(b) for b in bhk_list]`). -/
def numElems : PyVal → List Rat
  | PyVal.list xs => xs.filterMap (fun v => match v with | PyPrim.num q => Option.some q | _ => Option.none)
  | PyVal.repeated xs => xs.filterMap (fun v => match v with | PyPrim.num q => Option.some q | _ => Option.none)
  | _ => []

/-- The numeric value of a budget bound. -/
def numVal : PyVal → Rat
  | PyVal.num q => q
  | _ => 0

/-- `if city := filters.get('city'): results = results[results['city_lower'] == city.lower()]`
(`src/app.py` line 123-124, `src/ai_core.py` line 152-153). -/
def cityStep (filters : PyDict) (df : List Row) : List Row :=
  match dictGet filters "city" with
  | Option.some v => if truthy v then df.filter (fun r => r.city_lower == pyStrLower v) else df
  | Option.none => df

/-- `if bhk_list := filters.get('bhk_list'): results = results[results['bhk'].isin(...)]`
(`src/app.py` line 125-126, `src/ai_core.py` line 154-155). -/
def bhkStep (filters : PyDict) (df : List Row) : List Row :=
  match dictGet filters "bhk_list" with
  | Option.some v =>
      if truthy v then
        df.filter (fun r => match r.bhk with
          | Option.some b => (numElems v).contains b
          | Option.none => false)
      else df
  | Option.none => df

/-- `if budget_min := filters.get('budget_min_cr'): results = results[results['price_cr'] >= budget_min]`
(`src/app.py` line 127-128, `src/ai_core.py` line 156-157). -/
def minStep (filters : PyDict) (df : List Row) : List Row :=
  match dictGet filters "budget_min_cr" with
  | Option.some v =>
      if truthy v then
        df.filter (fun r => match r.price_cr with
          | Option.some p => decide (p ≥ numVal v)
          | Option.none => false)
      else df
  | Option.none => df

/-- `if budget_max := filters.get('budget_max_cr'): results = results[results['price_cr'] <= budget_max]`
(`src/app.py` line 129-130, `src/ai_core.py` line 158-159). -/
def maxStep (filters : PyDict) (df : List Row) : List Row :=
  match dictGet filters "budget_max_cr" with
  | Option.some v =>
      if truthy v then
        df.filter (fun r => match r.price_cr with
          | Option.some p => decide (p ≤ numVal v)
          | Option.none => false)
      else df
  | Option.none => df

/-- The predicate sequence shared verbatim by `search_properties`
(`src/app.py` lines 120-130) and the inline search of `get_bot_response`
(`src/ai_core.py` lines 151-159): city, then BHK membership, then the two
price bounds, each applied only when the filter value is truthy. -/
def applyFilters (df : List Row) (filters : PyDict) : List Row :=
  maxStep filters (minStep filters (bhkStep filters (cityStep filters df)))

/-- `search_properties(df, filters)` (`src/app.py` lines 116-133).
`df : Option (List Row)` models the `None` returned by
`load_and_prep_data` when the CSV is missing; `not filters` is dict
truthiness, i.e. emptiness of the association list. -/
def searchProperties (df : Option (List Row)) (filters : PyDict) : List Row :=
  match df with
  | Option.none => []
  | Option.some d => if filters.isEmpty then [] else applyFilters d filters

/-- One decimal digit's value. -/
def digitVal (c : Char) : Option Nat :=
  if c.isDigit then Option.some (c.toNat - 48) else Option.none

/-- The natural number written by a non-empty list of decimal digits. -/
def natOfDigits : List Char → Option Nat
  | [] => Option.none
  | cs => cs.foldl (fun acc c => acc.bind (fun a => (digitVal c).map (fun d => a * 10 + d)))
      (Option.some 0)

/-- Parse a decimal numeral (digits with at most one point, e.g. `1.2`)
as an exact rational: the digit string without the point is the mantissa,
placed over ten to the number of fractional digits. -/
def parseDec (s : String) : Option Rat :=
  match s.data.splitOn '.' with
  | [ip] => (natOfDigits ip).map (fun n => mkRat n 1)
  | [ip, fp] =>
      match natOfDigits ip, natOfDigits fp with
      | Option.some a, Option.some b =>
          Option.some (mkRat (a * 10 ^ fp.length + b) (10 ^ fp.length))
      | _, _ => Option.none
  | _ => Option.none

/-- A character that belongs to a token: alphanumeric or a decimal point. -/
def isTokChar (c : Char) : Bool := c.isAlphanum || c == '.'

/-- Split a character list into maximal runs of token characters. -/
def tokenize (s : List Char) : List String :=
  ((s.foldr (fun c acc =>
      match acc with
      | [] => [[c]]
      | g :: gs => if isTokChar c then (c :: g) :: gs else [] :: g :: gs)
    ([[]] : List (List Char))).filter (fun g => !g.isEmpty)).map (fun g => ⟨g⟩)

/-- A Crore unit token. -/
def isCrTok (t : String) : Bool := t == "cr" || t == "crore" || t == "crores"

/-- A Lakh unit token. -/
def isLakhTok (t : String) : Bool := t == "lakh" || t == "lakhs"

/-- Exact division of a rational by one hundred (the Lakh→Crore unit
conversion, 1 Crore = 100 Lakh), written without `Rat` field arithmetic:
`q / 100 = q.num / (q.den * 100)`. -/
def divHundred (q : Rat) : Rat := mkRat q.num (q.den * 100)

/-- A `between X and Y Cr` phrase starting at the head of the token list. -/
def tryBetweenHead : List String → Option (Rat × Rat)
  | "between" :: x :: "and" :: y :: u :: _ =>
      match parseDec x, parseDec y with
      | Option.some a, Option.some b => if isCrTok u then Option.some (a, b) else Option.none
      | _, _ => Option.none
  | _ => Option.none

/-- First `between X and Y Cr` phrase anywhere in the token list. -/
def scanBetween : List String → Option (Rat × Rat)
  | [] => Option.none
  | t :: rest =>
      match tryBetweenHead (t :: rest) with
      | Option.some r => Option.some r
      | Option.none => scanBetween rest

/-- An `under Y Cr` / `below Y Cr` phrase starting at the head. -/
def tryUnderHead : List String → Option Rat
  | t :: x :: u :: _ =>
      if t == "under" || t == "below" then
        match parseDec x with
        | Option.some v => if isCrTok u then Option.some v else Option.none
        | Option.none => Option.none
      else Option.none
  | _ => Option.none

/-- First `under/below Y Cr` phrase anywhere in the token list. -/
def scanUnder : List String → Option Rat
  | [] => Option.none
  | t :: rest =>
      match tryUnderHead (t :: rest) with
      | Option.some r => Option.some r
      | Option.none => scanUnder rest

/-- An `over X Cr` / `above X Cr` phrase starting at the head. -/
def tryOverHead : List String → Option Rat
  | t :: x :: u :: _ =>
      if t == "over" || t == "above" then
        match parseDec x with
        | Option.some v => if isCrTok u then Option.some v else Option.none
        | Option.none => Option.none
      else Option.none
  | _ => Option.none

/-- First `over/above X Cr` phrase anywhere in the token list. -/
def scanOver : List String → Option Rat
  | [] => Option.none
  | t :: rest =>
      match tryOverHead (t :: rest) with
      | Option.some r => Option.some r
      | Option.none => scanOver rest

/-- An `N Lakhs` phrase starting at the head. -/
def tryLakhHead : List String → Option Rat
  | x :: u :: _ => if isLakhTok u then parseDec x else Option.none
  | _ => Option.none

/-- First `N Lakhs` phrase anywhere in the token list. -/
def scanLakh : List String → Option Rat
  | [] => Option.none
  | t :: rest =>
      match tryLakhHead (t :: rest) with
      | Option.some r => Option.some r
      | Option.none => scanLakh rest

/-- Modelled from the spec: the pure function `normalize_budget` of §4.2 is
absent from the source files (`re` is imported by both but never used); this
definition follows the spec's table.  Matching is case-insensitive (the
input is lowercased first); the `between` pattern takes precedence over a
bare `under`/`over` match in the same text; `N Lakhs` is a point value
`N / 100` Crores; numbers are decimals. -/
def normalizeBudget (text : String) : Option Rat × Option Rat :=
  let toks := tokenize (lowerStr text).data
  match scanBetween toks with
  | Option.some (a, b) => (Option.some a, Option.some b)
  | Option.none =>
    match scanUnder toks with
    | Option.some y => (Option.none, Option.some y)
    | Option.none =>
      match scanOver toks with
      | Option.some x => (Option.some x, Option.none)
      | Option.none =>
        match scanLakh toks with
        | Option.some n => (Option.some (divHundred n), Option.some (divHundred n))
        | Option.none => (Option.none, Option.none)

/-- The five Filter Set fields, in schema order (`EXTRACTION_SCHEMA`). -/
def FIELDS : List String :=
  ["city", "bhk_list", "budget_min_cr", "budget_max_cr", "status_list"]

/-- Modelled from the spec: the field-wise merge of §4.1 is absent from the
source (no merge is performed in code); per the spec, a field supplied by
`ext` replaces the previous value and a field omitted by `ext` is carried
forward from `prev` unchanged. -/
def mergeFilters (prev ext : PyDict) : PyDict :=
  FIELDS.filterMap (fun k =>
    match dictGet ext k with
    | Option.some v => Option.some (k, v)
    | Option.none => (dictGet prev k).map (fun v => (k, v)))

/-- Modelled from the spec: the deterministic regex fallback of §4.4 step 3
is absent from the source; per the spec it applies §4.2's extraction to the
latest user message, producing a partial Filter Set holding only the budget
bounds the text determines. -/
def regexFallback (msg : String) : PyDict :=
  (match (normalizeBudget msg).1 with
   | Option.some v => [("budget_min_cr", PyVal.num v)]
   | Option.none => []) ++
  (match (normalizeBudget msg).2 with
   | Option.some v => [("budget_max_cr", PyVal.num v)]
   | Option.none => [])

/-- One message of the conversation transcript (a Python dict in the
source).  `cards`/`filters` are `Option.none` when the key is absent from
the dict (user messages), `Option.some` when present (assistant messages,
possibly with an empty value). -/
structure Turn where
  role : String
  content : String
  cards : Option (List Row) := Option.none
  filters : Option PyDict := Option.none
  deriving DecidableEq, Repr

/-- `chat_history[-1]['content']`. -/
def lastContent (h : List Turn) : String :=
  match h.getLast? with
  | Option.some t => t.content
  | Option.none => ""

/-- `next((msg.get('filters', {}) for msg in reversed(chat_history) if
isinstance(msg, dict) and 'filters' in msg), {})` (`src/ai_core.py` line 28). -/
def lastFilters (h : List Turn) : PyDict :=
  match h.reverse.find? (fun m => m.filters.isSome) with
  | Option.some m => m.filters.getD []
  | Option.none => []

/-- `SEARCH_INTENT_KEYWORDS` (`src/ai_core.py` line 20). -/
def SEARCH_INTENT_KEYWORDS : List String :=
  ["bhk", "flat", "property", "house", "apartment", "pune", "mumbai",
   "bangalore", "chennai", "delhi", "hyderabad", "cr", "lakh", "crore",
   "lakhs", "under", "between", "above", "ready to move", "possession"]

/-- Truthiness of `msg.get('cards')`: absent key and empty list are falsy. -/
def cardsTruthy : Option (List Row) → Bool
  | Option.some cs => !cs.isEmpty
  | Option.none => false

/-- Intent classification of `get_bot_response` (`src/ai_core.py` lines
133-143): search when the lowercased latest message contains any keyword,
else, when the history is longer than two messages, search when the
second-to-last message is an assistant message with truthy `cards`. -/
def isSearchQuery (h : List Turn) : Bool :=
  let latest := lowerStr (lastContent h)
  let kw := SEARCH_INTENT_KEYWORDS.any (fun k => strContains latest k)
  if kw then true
  else if h.length > 2 then
    match h.get? (h.length - 2) with
    | Option.some m => m.role == "assistant" && cardsTruthy m.cards
    | Option.none => false
  else false

/-- Python `hasattr(value, '__iter__')`: strings, lists and the
collaborator wrapper are iterable; `None` and numbers are not. -/
def hasIterAttr : PyVal → Bool
  | PyVal.str _ => true
  | PyVal.list _ => true
  | PyVal.repeated _ => true
  | PyVal.num _ => false
  | PyVal.none => false

/-- Python `isinstance(value, str)`. -/
def isPyStr : PyVal → Bool
  | PyVal.str _ => true
  | _ => false

/-- Python `list(value)` on an iterable value. -/
def iterElems : PyVal → List PyPrim
  | PyVal.list xs => xs
  | PyVal.repeated xs => xs
  | _ => []

/-- `list(value) if hasattr(value, '__iter__') and not isinstance(value, str)
else value` (`src/ai_core.py` line 65; `src/app.py` lines 101-107 spell the
same comprehension as a loop). -/
def sanitizeVal (v : PyVal) : PyVal :=
  if hasIterAttr v && !isPyStr v then PyVal.list (iterElems v) else v

/-- The sanitizing dict comprehension over the collaborator's raw
structured arguments. -/
def sanitizeFilters (raw : PyDict) : PyDict :=
  raw.map (fun kv => (kv.1, sanitizeVal kv.2))

/-- What §4.4 step 4 of the spec says of the sanitizer, stated
independently of the source: a non-text iterable field becomes the plain
ordered list of its elements; every scalar is untouched. -/
def sanitizeValSpec : PyVal → PyVal
  | PyVal.list xs => PyVal.list xs
  | PyVal.repeated xs => PyVal.list xs
  | v => v

/-- `_parse_filters_from_query` (`src/ai_core.py` lines 24-70) and its
near-duplicate `parse_query_with_context` (`src/app.py` lines 50-113): with
no API key configured it returns `{}` at once; otherwise the external NLU
call is the oracle `nlu` (`Option.some raw` = a structured `function_call`
with arguments `raw` was returned; `Option.none` = exception, timeout, no
candidates, or no structured call), whose `some` result is sanitized and
returned and whose failure falls through to `return {}`.  The transcript
`h` only shapes the prompt sent to the collaborator, which the oracle
abstracts. -/
def parseFiltersFromQuery (apiConfigured : Bool) (nlu : Option PyDict)
    (h : List Turn) : PyDict :=
  if !apiConfigured then []
  else
    match nlu with
    | Option.some raw => sanitizeFilters raw
    | Option.none => []

/-- `_generate_search_summary` (`src/ai_core.py` lines 73-89).  The oracle
`collab` is the external summarization call (`Option.none` = exception). -/
def generateSearchSummary (apiConfigured : Bool) (collab : Option String)
    (userQuery : String) (results : List Row) : String :=
  if !apiConfigured || results.isEmpty then
    "Unfortunately, no properties matched your updated search criteria. Please try adjusting your filters."
  else
    match collab with
    | Option.some t => t
    | Option.none => "Here are the properties I found based on your search."

/-- `generate_summary` (`src/app.py` lines 136-151), the app-side
near-duplicate: same shape, different fixed texts. -/
def generateSummaryApp (apiConfigured : Bool) (collab : Option String)
    (userQuery : String) (results : List Row) : String :=
  if !apiConfigured || results.isEmpty then
    "Here are the properties I found based on your search criteria."
  else
    match collab with
    | Option.some t => t
    | Option.none => "Here are the properties I found based on your search."

/-- `_generate_general_response` (`src/ai_core.py` lines 92-125). -/
def generateGeneralResponse (apiConfigured : Bool) (collab : Option String)
    (h : List Turn) : String :=
  if !apiConfigured then
    "I am a property search assistant. Please ask me about real estate."
  else
    match collab with
    | Option.some t => t
    | Option.none => "I'm sorry, I'm having trouble responding right now. Please try asking a property-related question."

/-- A value of the assistant turn record (the dict literal returned by
`get_bot_response`): a text, a list of result rows, or a filter dict. -/
inductive RecVal where
  | str (s : String) : RecVal
  | rows (xs : List Row) : RecVal
  | dict (d : PyDict) : RecVal
  deriving DecidableEq, Repr

/-- `get_bot_response` (`src/ai_core.py` lines 128-178): classify the
intent; on a search turn resolve filters, filter the dataset (no emptiness
guard here, unlike `search_properties`), summarize over the lowercased
latest query, and return the four-entry dict; otherwise return the
general-conversation dict.  The returned dict is modelled literally as an
association list so that its exact key set is part of the model. -/
def getBotResponse (apiConfigured : Bool) (nlu : Option PyDict)
    (summaryOracle : Option String) (generalOracle : Option String)
    (h : List Turn) (df : List Row) : List (String × RecVal) :=
  if isSearchQuery h then
    let filters := parseFiltersFromQuery apiConfigured nlu h
    let results := applyFilters df filters
    let summary := generateSearchSummary apiConfigured summaryOracle
      (lowerStr (lastContent h)) results
    [("role", RecVal.str "assistant"), ("content", RecVal.str summary),
     ("cards", RecVal.rows (results.take 6)), ("filters", RecVal.dict filters)]
  else
    [("role", RecVal.str "assistant"),
     ("content", RecVal.str (generateGeneralResponse apiConfigured generalOracle h)),
     ("cards", RecVal.rows []), ("filters", RecVal.dict [])]

/-! ## Concrete fixtures used by counterexamples and witnesses -/

/-- A sample prepared dataset row: a ready-to-move 2 BHK in Pune at
1.1 Crores. -/
def row1 : Row :=
  { projectName := "A", city := "Pune", city_lower := "pune",
    possession_status := "Ready to Move", status_lower := "ready to move",
    bhk := Option.some 2, price_cr := Option.some (mkRat 11 10) }

/-- A second sample row: an under-construction 3 BHK in Pune at 1.8 Crores. -/
def row2 : Row :=
  { projectName := "B", city := "Pune", city_lower := "pune",
    possession_status := "Under Construction", status_lower := "under construction",
    bhk := Option.some 3, price_cr := Option.some (mkRat 9 5) }

/-- A transcript whose assistant turn carries previous filters
(`city = "pune"`) and whose latest user message is `"under 1.2 cr"`. -/
def hist1 : List Turn :=
  [{ role := "assistant",
     content := "Hello! How can I help you find your dream home today?",
     filters := Option.some [("city", PyVal.str "pune")] },
   { role := "user", content := "under 1.2 cr" }]

/-- A two-message transcript: an assistant search answer carrying a
non-empty result sample, followed by a keyword-free user reply. -/
def hist2 : List Turn :=
  [{ role := "assistant", content := "results", cards := Option.some [row1],
     filters := Option.some [] },
   { role := "user", content := "hello" }]

/-- A one-message search transcript. -/
def hist3 : List Turn :=
  [{ role := "user", content := "2 bhk in pune" }]

/-- A complete five-field collaborator response. -/
def raw5 : PyDict :=
  [("city", PyVal.str "Pune"),
   ("bhk_list", PyVal.repeated [PyPrim.num 2]),
   ("budget_min_cr", PyVal.num 1),
   ("budget_max_cr", PyVal.num 2),
   ("status_list", PyVal.repeated [PyPrim.str "Ready to Move"])]

/-! ## Helper lemmas: each predicate step is a `List.filter` -/

/-- The row predicate the city step applies (vacuously true when the
filter is absent or falsy). -/
def cityPred (filters : PyDict) (r : Row) : Bool :=
  match dictGet filters "city" with
  | Option.some v => if truthy v then r.city_lower == pyStrLower v else true
  | Option.none => true

/-- The row predicate the BHK step applies. -/
def bhkPred (filters : PyDict) (r : Row) : Bool :=
  match dictGet filters "bhk_list" with
  | Option.some v =>
      if truthy v then
        match r.bhk with
        | Option.some b => (numElems v).contains b
        | Option.none => false
      else true
  | Option.none => true

/-- The row predicate the minimum-budget step applies. -/
def minPred (filters : PyDict) (r : Row) : Bool :=
  match dictGet filters "budget_min_cr" with
  | Option.some v =>
      if truthy v then
        match r.price_cr with
        | Option.some p => decide (p ≥ numVal v)
        | Option.none => false
      else true
  | Option.none => true

/-- The row predicate the maximum-budget step applies. -/
def maxPred (filters : PyDict) (r : Row) : Bool :=
  match dictGet filters "budget_max_cr" with
  | Option.some v =>
      if truthy v then
        match r.price_cr with
        | Option.some p => decide (p ≤ numVal v)
        | Option.none => false
      else true
  | Option.none => true

theorem cityStep_eq_filter (filters : PyDict) (df : List Row) :
    cityStep filters df = df.filter (cityPred filters) := by
  unfold cityStep cityPred
  cases dictGet filters "city" with
  | none => simp
  | some v => cases hv : truthy v <;> simp [hv]

theorem bhkStep_eq_filter (filters : PyDict) (df : List Row) :
    bhkStep filters df = df.filter (bhkPred filters) := by
  unfold bhkStep bhkPred
  cases dictGet filters "bhk_list" with
  | none => simp
  | some v => cases hv : truthy v <;> simp [hv]

theorem minStep_eq_filter (filters : PyDict) (df : List Row) :
    minStep filters df = df.filter (minPred filters) := by
  unfold minStep minPred
  cases dictGet filters "budget_min_cr" with
  | none => simp
  | some v => cases hv : truthy v <;> simp [hv]

theorem maxStep_eq_filter (filters : PyDict) (df : List Row) :
    maxStep filters df = df.filter (maxPred filters) := by
  unfold maxStep maxPred
  cases dictGet filters "budget_max_cr" with
  | none => simp
  | some v => cases hv : truthy v <;> simp [hv]

theorem filter_swap (p q : Row → Bool) (l : List Row) :
    (l.filter q).filter p = (l.filter p).filter q := by
  simp only [List.filter_filter]
  congr 1
  funext a
  exact Bool.and_comm (p a) (q a)

example : lowerStr "Under 1.2 Cr" = "under 1.2 cr" := by decide
example : strContains "2 bhk in pune" "bhk" = true := by decide
example : strContains "hello" "cr" = false := by decide
example : normalizeBudget "between 1 and 2 Cr" = (Option.some 1, Option.some 2) := by decide
example : normalizeBudget "under 1.2 cr" = (Option.none, Option.some (mkRat 6 5)) := by decide
example : normalizeBudget "80 Lakhs" = (Option.some (mkRat 4 5), Option.some (mkRat 4 5)) := by decide
example : normalizeBudget "under 9 cr and between 1 and 2 cr" = (Option.some 1, Option.some 2) := by decide

/-! ## Claims -/

/-- C1, as stated, is false of the code: on extraction-collaborator failure
`_parse_filters_from_query` returns `{}` — it does not apply a regex
fallback and does not merge against the previous filters.  Concretely, with
previous filters `{city: "pune"}` and latest user message `"under 1.2 cr"`,
the resolver's output on failure is `{}`, while
`merge(previous_filters, regex_fallback(latest_message))` is
`{city: "pune", budget_max_cr: 1.2}`. -/
theorem claim_C1_counterexample :
    parseFiltersFromQuery true Option.none hist1 = [] ∧
    mergeFilters (lastFilters hist1) (regexFallback (lastContent hist1)) =
      [("city", PyVal.str "pune"), ("budget_max_cr", PyVal.num (mkRat 6 5))] ∧
    parseFiltersFromQuery true Option.none hist1 ≠
      mergeFilters (lastFilters hist1) (regexFallback (lastContent hist1)) := by
  refine ⟨by decide, by decide, ?_⟩
  intro h
  rw [show parseFiltersFromQuery true Option.none hist1 = [] from by decide,
      show mergeFilters (lastFilters hist1) (regexFallback (lastContent hist1)) =
        [("city", PyVal.str "pune"), ("budget_max_cr", PyVal.num (mkRat 6 5))] from by decide] at h
  exact absurd h (by decide)

/-- C1 amended: for every conversation transcript, if the external NLU
extraction call fails (exception, timeout, or absent structured response),
the resolver's output is the empty filter set `{}`; the failure is
recovered locally and the error is never propagated to the caller.  (No
regex fallback and no merge against the previous filters exists in the
code.) -/
theorem claim_C1_amended (apiConfigured : Bool) (h : List Turn) :
    parseFiltersFromQuery apiConfigured Option.none h = [] := by
  unfold parseFiltersFromQuery
  cases apiConfigured <;> simp

/-- C2, as stated, is false of `search_properties`: applying the empty
filter set `{}` to the non-empty dataset `[row1]` returns the empty result
set, not the full dataset, because of the `if df is None or not filters`
guard. -/
theorem claim_C2_counterexample :
    searchProperties (Option.some [row1]) [] = [] ∧ [row1] ≠ ([] : List Row) := by
  exact ⟨rfl, by decide⟩

/-- C2 amended: `search_properties` returns the empty result set for the
empty filter set (its guard short-circuits); the inline Result Set Builder
of `get_bot_response` returns any dataset unchanged under the empty filter
set; and in both builders every field absent from the filter set imposes no
constraint (its predicate step is the identity). -/
theorem claim_C2_amended (df : List Row) (filters : PyDict) :
    searchProperties (Option.some df) [] = [] ∧
    applyFilters df [] = df ∧
    (dictGet filters "city" = Option.none → cityStep filters df = df) ∧
    (dictGet filters "bhk_list" = Option.none → bhkStep filters df = df) ∧
    (dictGet filters "budget_min_cr" = Option.none → minStep filters df = df) ∧
    (dictGet filters "budget_max_cr" = Option.none → maxStep filters df = df) := by
  refine ⟨rfl, rfl, ?_, ?_, ?_, ?_⟩ <;> intro h
  · unfold cityStep; rw [h]
  · unfold bhkStep; rw [h]
  · unfold minStep; rw [h]
  · unfold maxStep; rw [h]

/-- Witness for the amended C2 at a concrete non-empty dataset and a
concrete filter set with every field absent. -/
theorem claim_C2_amended_witness :
    applyFilters [row1, row2] [] = [row1, row2] ∧ cityStep [] [row1] = [row1] :=
  ⟨(claim_C2_amended [row1, row2] []).2.1, (claim_C2_amended [row1] []).2.2.1 rfl⟩

/-- C3, as stated, is false of the code: the resolver does not always
return a complete Filter Set.  On extraction failure it returns `{}`, in
which no field has a value, although the previous turn of `hist1` carried
`city = "pune"` — the field is silently dropped between turns. -/
theorem claim_C3_counterexample :
    dictGet (parseFiltersFromQuery true Option.none hist1) "city" = Option.none ∧
    dictGet (lastFilters hist1) "city" = Option.some (PyVal.str "pune") := by
  exact ⟨rfl, rfl⟩

/-- C3 amended: the resolver's output is complete exactly when the
collaborator's structured response is — sanitization preserves the key
set, so a response carrying all five fields yields an output carrying all
five fields — while on extraction failure (and on a missing API key) the
resolver returns the empty filter set, dropping every carried-forward
field. -/
theorem claim_C3_amended (h : List Turn) (raw : PyDict) :
    (FIELDS.all (fun k => (dictGet raw k).isSome) = true →
      FIELDS.all
        (fun k => (dictGet (parseFiltersFromQuery true (Option.some raw) h) k).isSome) = true) ∧
    parseFiltersFromQuery true Option.none h = [] ∧
    parseFiltersFromQuery false Option.none h = [] := by
  have key : ∀ (d : PyDict) (k : String),
      dictGet (sanitizeFilters d) k = (dictGet d k).map sanitizeVal := by
    intro d k
    induction d with
    | nil => rfl
    | cons kv rest ih =>
        simp only [sanitizeFilters, List.map_cons, dictGet, List.find?_cons] at *
        cases hkv : (kv.1 == k) <;> simp_all
  refine ⟨?_, rfl, rfl⟩
  intro hall
  simp only [List.all_eq_true] at hall ⊢
  intro k hk
  have hsome := hall k hk
  have heq : parseFiltersFromQuery true (Option.some raw) h = sanitizeFilters raw := rfl
  rw [heq, key raw k]
  cases hdg : dictGet raw k with
  | none => rw [hdg] at hsome; simp at hsome
  | some v => rfl

/-- Witness for the amended C3: a complete collaborator response yields a
complete resolver output. -/
theorem claim_C3_amended_witness :
    FIELDS.all
      (fun k => (dictGet (parseFiltersFromQuery true (Option.some raw5) hist3) k).isSome) = true :=
  (claim_C3_amended hist3 raw5).1 (by decide)

/-- C4 (settled against the spec-modelled `normalizeBudget`; the source
files import `re` but define no budget normalizer): the §4.2 table holds —
`"between 1 and 2 Cr"` gives `(1, 2)`, `"under 1.2 cr"` gives
`(unset, 6/5)`, `"80 Lakhs"` gives the point value `(4/5, 4/5)`; matching
is case-insensitive (an uppercase spelling gives the same answer, and any
two texts with the same lowercasing agree); and the `between` pattern takes
precedence over a bare `under` match in the same text. -/
theorem claim_C4_normalize_budget :
    normalizeBudget "between 1 and 2 Cr" = (Option.some 1, Option.some 2) ∧
    normalizeBudget "under 1.2 cr" = (Option.none, Option.some (mkRat 6 5)) ∧
    normalizeBudget "80 Lakhs" = (Option.some (mkRat 4 5), Option.some (mkRat 4 5)) ∧
    normalizeBudget "UNDER 1.2 CR" = (Option.none, Option.some (mkRat 6 5)) ∧
    (∀ s t : String, lowerStr s = lowerStr t → normalizeBudget s = normalizeBudget t) ∧
    normalizeBudget "under 9 cr and between 1 and 2 cr" = (Option.some 1, Option.some 2) := by
  refine ⟨by decide, by decide, by decide, by decide, ?_, by decide⟩
  intro s t hst
  unfold normalizeBudget
  rw [hst]

/-- Witness for C4's case-insensitivity conjunct at concrete inputs. -/
theorem claim_C4_witness :
    normalizeBudget "Between 1 And 2 Cr" = normalizeBudget "between 1 and 2 cr" :=
  claim_C4_normalize_budget.2.2.2.2.1 "Between 1 And 2 Cr" "between 1 and 2 cr" (by decide)

/-- C5: the Result Set Builder is order-independent across predicate
application order — city-then-price equals price-then-city — and both
`search_properties` and the inline builder produce a result set that is a
sublist of the dataset, hence preserve its row order with no implicit
sort. -/
theorem claim_C5_order_independent (df : List Row) (filters : PyDict) :
    cityStep filters (maxStep filters (minStep filters df)) =
      maxStep filters (minStep filters (cityStep filters df)) ∧
    (applyFilters df filters).Sublist df ∧
    (searchProperties (Option.some df) filters).Sublist df := by
  have hsub : (applyFilters df filters).Sublist df := by
    unfold applyFilters
    rw [cityStep_eq_filter, bhkStep_eq_filter, minStep_eq_filter, maxStep_eq_filter]
    exact (List.filter_sublist _).trans ((List.filter_sublist _).trans
      ((List.filter_sublist _).trans (List.filter_sublist _)))
  refine ⟨?_, hsub, ?_⟩
  · simp only [cityStep_eq_filter, minStep_eq_filter, maxStep_eq_filter]
    rw [filter_swap (cityPred filters) (maxPred filters),
        filter_swap (cityPred filters) (minPred filters)]
  · show (if filters.isEmpty then ([] : List Row) else applyFilters df filters).Sublist df
    split
    · exact List.nil_sublist df
    · exact hsub

/-- C6, as stated, is false of `generate_summary` in `src/app.py`: on an
empty result set it returns a fixed sentence claiming properties were
found, not a "no matches" text (the no-matches text belongs to
`_generate_search_summary` in `src/ai_core.py`). -/
theorem claim_C6_counterexample :
    generateSummaryApp true (Option.some "BOOM") "q" [] =
      "Here are the properties I found based on your search criteria." ∧
    "Here are the properties I found based on your search criteria." ≠
      "Unfortunately, no properties matched your updated search criteria. Please try adjusting your filters." := by
  exact ⟨rfl, by decide⟩

/-- C6 amended: on an empty result set both summary generators return a
fixed text whose value is independent of the external collaborator and of
the query (so a stub collaborator that raises on any call would observe no
call); `_generate_search_summary` (`src/ai_core.py`) returns the fixed
"no matches" text, while `generate_summary` (`src/app.py`) returns its
generic "properties I found" sentence. -/
theorem claim_C6_amended (apiConfigured : Bool) (collab collab2 : Option String)
    (q q2 : String) :
    generateSearchSummary apiConfigured collab q [] =
      "Unfortunately, no properties matched your updated search criteria. Please try adjusting your filters." ∧
    generateSummaryApp apiConfigured collab q [] =
      "Here are the properties I found based on your search criteria." ∧
    generateSearchSummary apiConfigured collab q [] =
      generateSearchSummary apiConfigured collab2 q2 [] ∧
    generateSummaryApp apiConfigured collab q [] =
      generateSummaryApp apiConfigured collab2 q2 [] := by
  unfold generateSearchSummary generateSummaryApp
  cases apiConfigured <;> simp

/-- C7, as stated, is false of the code: `get_bot_response` additionally
requires `len(chat_history) > 2` before consulting the preceding
assistant turn.  In the two-message transcript `hist2` the latest user
message "hello" matches no keyword and the immediately preceding assistant
turn carries a non-empty result sample, so the claim classifies it as
`search`, yet the code classifies it as general conversation. -/
theorem claim_C7_counterexample :
    isSearchQuery hist2 = false ∧
    SEARCH_INTENT_KEYWORDS.any (fun k => strContains (lowerStr (lastContent hist2)) k) = false ∧
    hist2.get? (hist2.length - 2) = Option.some
      { role := "assistant", content := "results", cards := Option.some [row1],
        filters := Option.some [] } ∧
    cardsTruthy (Option.some [row1]) = true := by
  refine ⟨by decide, by decide, by decide, by decide⟩

/-- C7 amended: the classifier returns `search` if and only if the
lowercased latest message contains a keyword of the fixed set, or no
keyword matches, the history is longer than two messages, and the
immediately preceding assistant turn carries a non-empty result sample. -/
theorem claim_C7_amended (h : List Turn) :
    isSearchQuery h = true ↔
      SEARCH_INTENT_KEYWORDS.any (fun k => strContains (lowerStr (lastContent h)) k) = true ∨
      (SEARCH_INTENT_KEYWORDS.any (fun k => strContains (lowerStr (lastContent h)) k) = false ∧
        2 < h.length ∧
        ∃ m, h.get? (h.length - 2) = Option.some m ∧
          m.role = "assistant" ∧ cardsTruthy m.cards = true) := by
  unfold isSearchQuery
  cases hkw : SEARCH_INTENT_KEYWORDS.any (fun k => strContains (lowerStr (lastContent h)) k) with
  | true => simp [hkw]
  | false =>
      simp only [hkw, if_false, Bool.false_eq_true, false_or, true_and, if_true]
      by_cases hl : 2 < h.length
      · simp only [show h.length > 2 ↔ 2 < h.length from Iff.rfl, hl, if_true, true_and]
        cases hg : h.get? (h.length - 2) with
        | none => simp [hg]
        | some m => simp [hg, Bool.and_eq_true]
      · simp [hl]

/-- C8: the sanitizer maps each field value that is an iterable but not
text (a plain list or a collaborator-native iterable wrapper) to the plain
ordered list of its elements, and leaves every scalar — including strings,
which are iterable but text — untouched; field names and their order are
preserved.  `sanitizeValSpec` is the spec's §4.4-step-4 description,
`sanitizeFilters` the source's comprehension; they agree on every raw
structured response. -/
theorem claim_C8_sanitizer (raw : PyDict) :
    sanitizeFilters raw = raw.map (fun kv => (kv.1, sanitizeValSpec kv.2)) ∧
    (sanitizeFilters raw).map Prod.fst = raw.map Prod.fst := by
  have hval : ∀ v : PyVal, sanitizeVal v = sanitizeValSpec v := by
    intro v
    cases v <;> rfl
  constructor
  · unfold sanitizeFilters
    exact List.map_congr_left (fun kv _ => by rw [hval])
  · unfold sanitizeFilters
    simp

/-- C9: on every search turn the assistant turn record emitted by
`get_bot_response` is exactly the four-entry dict whose keys are `role`,
`content`, `cards`, `filters`: besides the role, the payload is exactly
the summary text, the first at most six rows of the result set, and the
resolved filter set. -/
theorem claim_C9_turn_record (apiConfigured : Bool) (nlu : Option PyDict)
    (so go : Option String) (h : List Turn) (df : List Row)
    (hs : isSearchQuery h = true) :
    (getBotResponse apiConfigured nlu so go h df).map Prod.fst =
      ["role", "content", "cards", "filters"] ∧
    getBotResponse apiConfigured nlu so go h df =
      [("role", RecVal.str "assistant"),
       ("content", RecVal.str (generateSearchSummary apiConfigured so
          (lowerStr (lastContent h))
          (applyFilters df (parseFiltersFromQuery apiConfigured nlu h)))),
       ("cards", RecVal.rows
          ((applyFilters df (parseFiltersFromQuery apiConfigured nlu h)).take 6)),
       ("filters", RecVal.dict (parseFiltersFromQuery apiConfigured nlu h))] ∧
    ((applyFilters df (parseFiltersFromQuery apiConfigured nlu h)).take 6).length ≤ 6 := by
  refine ⟨?_, ?_, ?_⟩
  · unfold getBotResponse
    rw [hs]
    rfl
  · unfold getBotResponse
    rw [hs]
    rfl
  · rw [List.length_take]
    exact min_le_left 6 _
/-- Witness for C9 on a concrete search turn. -/
theorem claim_C9_witness :
    isSearchQuery hist3 = true ∧
    (getBotResponse true (Option.some raw5) (Option.some "S") (Option.some "G")
        hist3 [row1, row2]).map Prod.fst = ["role", "content", "cards", "filters"] :=
  ⟨by decide,
   (claim_C9_turn_record true (Option.some raw5) (Option.some "S") (Option.some "G")
      hist3 [row1, row2] (by decide)).1⟩

/-- C10: a filter field whose value is falsy — a zero budget bound, an
empty `bhk_list`, an empty-string city — is treated exactly like an absent
field: its predicate step is the identity; in particular a maximum budget
of 0 Crores excludes no rows, end to end through `search_properties`
(whose non-empty-dict guard such a filter set still passes). -/
theorem claim_C10_falsy_filters (df : List Row) (filters : PyDict) :
    (dictGet filters "budget_max_cr" = Option.some (PyVal.num 0) →
      maxStep filters df = df) ∧
    (dictGet filters "budget_min_cr" = Option.some (PyVal.num 0) →
      minStep filters df = df) ∧
    (dictGet filters "bhk_list" = Option.some (PyVal.list []) →
      bhkStep filters df = df) ∧
    (dictGet filters "city" = Option.some (PyVal.str "") →
      cityStep filters df = df) ∧
    searchProperties (Option.some df) [("budget_max_cr", PyVal.num 0)] = df := by
  refine ⟨?_, ?_, ?_, ?_, ?_⟩
  · intro hv; unfold maxStep; rw [hv]; simp [truthy]
  · intro hv; unfold minStep; rw [hv]; simp [truthy]
  · intro hv; unfold bhkStep; rw [hv]; simp [truthy]
  · intro hv; unfold cityStep; rw [hv]; simp [truthy]
  · rfl
/-- Witness for C10 at a concrete dataset and filter set. -/
theorem claim_C10_witness :
    maxStep [("budget_max_cr", PyVal.num 0)] [row1, row2] = [row1, row2] ∧
    cityStep [("city", PyVal.str "")] [row1] = [row1] :=
  ⟨(claim_C10_falsy_filters [row1, row2] [("budget_max_cr", PyVal.num 0)]).1 rfl,
   (claim_C10_falsy_filters [row1] [("city", PyVal.str "")]).2.2.2.1 rfl⟩
